import Mathlib

/-!
Shallow embedding of `src/chatbot_server.py` (a Flask relay server that
forwards chat messages to an Ollama inference backend) and verification of
its specification's claims.

Modelling conventions:
* Python values that cross the JSON boundary are modelled by `PyVal`
  (dict keys are strings, as produced by JSON parsing; a `pyDict`
  represents a Python dict, whose keys are distinct).
* A Python operation that can raise an exception is modelled in
  `Except Unit`; the identity of the exception is irrelevant to the
  program (every `except` clause catches all exceptions uniformly),
  so the error type is `Unit`.
* The HTTP backend is an explicit parameter: a function from the payload
  sent to `POST /api/generate` to an abstract outcome (`GenOutcome`).
  The second component of `chat`'s and `query_ollama`'s result records
  the payload of the backend call, or `none` when no call was made.
* Wall-clock timeouts (150 s, 5 s) are not modelled; a timeout appears
  as the `exn` outcome, exactly as the code observes it (an exception
  raised by `requests`).
-/

namespace ChatbotServer

/-- Python values as delivered by JSON parsing plus `None`/`bool`. -/
inductive PyVal where
  | pyNone : PyVal
  | pyBool (b : Bool) : PyVal
  | pyInt (n : Int) : PyVal
  | pyStr (s : String) : PyVal
  | pyList (xs : List PyVal) : PyVal
  | pyDict (kvs : List (String × PyVal)) : PyVal

/-- Results of Python expressions that may raise; the except clauses in the
source never inspect the exception, so the error carries no data. -/
abbrev PyResult (α : Type) : Type := Except Unit α

/-- Python truthiness (`if x:`): `None`, `False`, `0`, and empty
containers/strings are falsy. -/
def pyTruthy : PyVal → Bool
  | .pyNone => false
  | .pyBool b => b
  | .pyInt n => n ≠ 0
  | .pyStr s => s ≠ ""
  | .pyList xs => !xs.isEmpty
  | .pyDict kvs => !kvs.isEmpty

/-- Python `len(x)`: defined for strings, lists and dicts; raises
`TypeError` on `None`, booleans and numbers. -/
def pyLen : PyVal → PyResult Nat
  | .pyStr s => .ok s.length
  | .pyList xs => .ok xs.length
  | .pyDict kvs => .ok kvs.length
  | _ => .error ()

/-- Python `d.get(key, default)`: only dicts have a `.get` attribute;
on anything else the attribute access raises `AttributeError`. -/
def pyGetDefault (v : PyVal) (key : String) (dflt : PyVal) : PyResult PyVal :=
  match v with
  | .pyDict kvs =>
    match kvs.lookup key with
    | some x => .ok x
    | none => .ok dflt
  | _ => .error ()

/-- Python `v[key]` for a string key: dict lookup (`KeyError` when the key
is absent); subscripting anything but a dict with a string raises
`TypeError`. -/
def pySubscript (v : PyVal) (key : String) : PyResult PyVal :=
  match v with
  | .pyDict kvs =>
    match kvs.lookup key with
    | some x => .ok x
    | none => .error ()
  | _ => .error ()

/-- Characters stripped by Python `str.strip()` (ASCII whitespace; the
exotic Unicode space classes are elided, no claim depends on them). -/
def pyIsSpace (c : Char) : Bool :=
  c = ' ' || c = '\t' || c = '\n' || c = '\r' ||
    c = Char.ofNat 11 || c = Char.ofNat 12

/-- The string produced by Python `s.strip()`: leading and trailing
whitespace removed. -/
def stripString (s : String) : String :=
  ⟨((s.data.dropWhile pyIsSpace).reverse.dropWhile pyIsSpace).reverse⟩

/-- Python `v.strip()`: only strings have a `.strip` attribute; on any
other value the attribute access raises `AttributeError`. -/
def pyStrip : PyVal → PyResult String
  | .pyStr s => .ok (stripString s)
  | _ => .error ()

/-- Python `v[-4:]`: slicing is defined on lists and strings (keeping the
last four items) and raises `TypeError` elsewhere. -/
def pySliceLast4 : PyVal → PyResult PyVal
  | .pyList xs => .ok (.pyList (xs.drop (xs.length - 4)))
  | .pyStr s => .ok (.pyStr ⟨s.data.drop (s.data.length - 4)⟩)
  | _ => .error ()

/-- Python `v[:300]`: slicing is defined on lists and strings (keeping the
first 300 items) and raises `TypeError` elsewhere. -/
def pySliceFirst300 : PyVal → PyResult PyVal
  | .pyList xs => .ok (.pyList (xs.take 300))
  | .pyStr s => .ok (.pyStr ⟨s.data.take 300⟩)
  | _ => .error ()

/-- Python `for msg in v`: iteration over lists (elements), strings
(one-character strings) and dicts (keys); raises `TypeError` elsewhere. -/
def pyIter : PyVal → PyResult (List PyVal)
  | .pyList xs => .ok xs
  | .pyStr s => .ok (s.data.map (fun c => .pyStr (String.singleton c)))
  | .pyDict kvs => .ok (kvs.map (fun kv => .pyStr kv.1))
  | _ => .error ()

/-- The single-quote character, used by Python `repr` of strings. -/
def pyQuote : String := String.singleton (Char.ofNat 39)

mutual

/-- Python `repr(v)` as used for elements of containers rendered into an
f-string. Escape sequences and quote selection inside string reprs are
elided; no claim depends on the repr of nested containers. -/
def pyRepr : PyVal → String
  | .pyNone => "None"
  | .pyBool b => if b then "True" else "False"
  | .pyInt n => toString n
  | .pyStr s => pyQuote ++ s ++ pyQuote
  | .pyList xs => "[" ++ pyReprSeq xs ++ "]"
  | .pyDict kvs => "\x7b" ++ pyReprPairs kvs ++ "\x7d"

/-- Comma-separated reprs of a list's elements. -/
def pyReprSeq : List PyVal → String
  | [] => ""
  | [x] => pyRepr x
  | x :: y :: xs => pyRepr x ++ ", " ++ pyReprSeq (y :: xs)

/-- Comma-separated reprs of a dict's entries. -/
def pyReprPairs : List (String × PyVal) → String
  | [] => ""
  | [kv] => pyQuote ++ kv.1 ++ pyQuote ++ ": " ++ pyRepr kv.2
  | kv :: p :: xs =>
    pyQuote ++ kv.1 ++ pyQuote ++ ": " ++ pyRepr kv.2 ++ ", " ++ pyReprPairs (p :: xs)

end

/-- Python `str(v)` as used by f-string interpolation. -/
def pyToStr : PyVal → String
  | .pyNone => "None"
  | .pyBool b => if b then "True" else "False"
  | .pyInt n => toString n
  | .pyStr s => s
  | .pyList xs => "[" ++ pyReprSeq xs ++ "]"
  | .pyDict kvs => "\x7b" ++ pyReprPairs kvs ++ "\x7d"

/-! ## Server constants (lines 14-39 of `chatbot_server.py`) -/

/-- Fixed base URL of the inference backend. -/
def OLLAMA_BASE_URL : String := "http://localhost:11434"

/-- Fixed model identifier. -/
def MODEL_NAME : String := "chemeng-tutor"

/-- The fixed system instruction sent with every generate call. -/
def SYSTEM_PROMPT : String :=
  "You are an expert Chemical Engineering tutor.\n\nFORMATTING:\n- Use LaTeX for math: $inline$ or $$display$$\n- Use markdown: **bold**, lists, code blocks\n- Always include units\n\nTEACHING:\n- Be clear, accurate, and concise\n- Provide step-by-step explanations for complex topics\n- Give numerical examples when helpful\n- For simple questions, answer directly\n\nTHINKING (OPTIONAL):\n- For complex multi-step problems, you MAY briefly show reasoning in <thinking> tags\n- Keep thinking SHORT and focused on key steps\n- For simple questions, skip thinking and answer directly\n\nRESTRICTIONS:\n- ONLY Chemical Engineering topics\n- If asked other topics: \"I specialize in Chemical Engineering topics!\"\n\nMaintain high accuracy while being efficient."

/-- The fixed sampling options block of the generate payload
(lines 57-63). The two float-valued fields are exact decimal constants,
modelled as rationals. -/
structure GenOptions where
  temperature : ℚ
  top_p : ℚ
  num_ctx : ℕ
  num_predict : ℕ
  top_k : ℕ
deriving DecidableEq

/-- The options block the server always sends. -/
def ollamaOptions : GenOptions :=
  { temperature := 6/10, top_p := 9/10, num_ctx := 6144,
    num_predict := 1536, top_k := 40 }

/-- The JSON payload of a `POST /api/generate` call (lines 52-64). -/
structure GenPayload where
  model : String
  prompt : String
  system : String
  stream : Bool
  options : GenOptions
deriving DecidableEq

/-- The payload built by `query_ollama` for a given full prompt; every
field except `prompt` is a constant. -/
def mkPayload (full_prompt : String) : GenPayload :=
  { model := MODEL_NAME, prompt := full_prompt, system := SYSTEM_PROMPT,
    stream := false, options := ollamaOptions }

/-- Outcome of the `requests.post` generate call, as the caller observes
it: either an HTTP response arrived (with its status code, and the parsed
JSON body, `none` when `response.json()` would raise on a malformed body),
or the call raised (timeout, connection failure, ...), carrying the
exception's message. -/
inductive GenOutcome where
  | resp (status : ℕ) (body : Option PyVal) : GenOutcome
  | exn (msg : String) : GenOutcome

/-- One item of the f-string list comprehension of lines 44-47:
`f"{'Student' if msg['role'] == 'user' else 'Tutor'}: {msg['content'][:300]}"`.
Evaluation order matches Python: the role subexpression is evaluated
before the content subexpression; either subscript (and the slice) may
raise. A non-string role compares unequal to the string literal, with no
exception. -/
def formatTurn (msg : PyVal) : PyResult String := do
  let role ← pySubscript msg "role"
  let speaker : String :=
    match role with
    | .pyStr s => if s = "user" then "Student" else "Tutor"
    | _ => "Tutor"
  let content ← pySubscript msg "content"
  let sliced ← pySliceFirst300 content
  pure (speaker ++ ": " ++ pyToStr sliced)

/-- The list comprehension of lines 44-47: formats each turn from left to
right, propagating the first exception raised. -/
def formatTurns : List PyVal → PyResult (List String)
  | [] => .ok []
  | msg :: rest => do
    let s ← formatTurn msg
    let ss ← formatTurns rest
    pure (s :: ss)

/-- Lines 43-50: the `full_prompt` construction inside `query_ollama`'s
`try`. `conversation_history and len(conversation_history) > 0`
short-circuits: `len` is only evaluated (and may only raise) when the
history is truthy. -/
def buildFullPrompt (prompt : String) (conversation_history : PyVal) :
    PyResult String := do
  let cond ←
    if pyTruthy conversation_history then do
      let n ← pyLen conversation_history
      pure (decide (n > 0))
    else
      pure false
  if cond then do
    let lastFour ← pySliceLast4 conversation_history
    let msgs ← pyIter lastFour
    let parts ← formatTurns msgs
    let history_text := String.intercalate "\n\n" parts
    pure ("Recent context:\n" ++ history_text ++ "\n\nStudent: " ++ prompt)
  else
    pure prompt

/-- Lines 41-84, `query_ollama(prompt, conversation_history)`.

The first component is the Python return value (`pyNone` models
`return None`); the second records the payload of the backend call when
one was made (`none` = `requests.post` never reached). Every exception
raised inside the `try` (a malformed history turn, a raise out of
`requests.post`, a malformed response body, a missing `"response"` key,
or `len(result)` on an unsized value at line 76) is caught by the
`except` of lines 82-84 and becomes `return None`. -/
def query_ollama (backend : GenPayload → GenOutcome) (prompt : String)
    (conversation_history : PyVal) : PyVal × Option GenPayload :=
  match buildFullPrompt prompt conversation_history with
  | .error _ => (.pyNone, none)
  | .ok full_prompt =>
    match backend (mkPayload full_prompt) with
    | .exn _ => (.pyNone, some (mkPayload full_prompt))
    | .resp status body =>
      if status = 200 then
        match body with
        | none => (.pyNone, some (mkPayload full_prompt))
        | some j =>
          match pySubscript j "response" with
          | .error _ => (.pyNone, some (mkPayload full_prompt))
          | .ok result =>
            match pyLen result with
            | .error _ => (.pyNone, some (mkPayload full_prompt))
            | .ok _ => (result, some (mkPayload full_prompt))
      else
        (.pyNone, some (mkPayload full_prompt))

/-- Outcome of the `requests.get` on `/api/tags` in the health check:
an HTTP response with its status, or a raised exception with its
message. -/
inductive TagsOutcome where
  | resp (status : ℕ) : TagsOutcome
  | exn (msg : String) : TagsOutcome
deriving DecidableEq

/-- Lines 86-106, the `/health` handler. Returns the JSON body and the
HTTP status code of the Flask response. -/
def health_check (tags : TagsOutcome) : PyVal × ℕ :=
  match tags with
  | .resp status =>
    if status = 200 then
      (.pyDict [("status", .pyStr "healthy"), ("ollama", .pyStr "connected"),
        ("model", .pyStr MODEL_NAME)], 200)
    else
      (.pyDict [("status", .pyStr "unhealthy"),
        ("ollama", .pyStr "disconnected")], 503)
  | .exn msg =>
    (.pyDict [("status", .pyStr "error"), ("message", .pyStr msg)], 503)

/-- Lines 108-134, the `/api/chat` handler.

`reqJson` is `request.json`: `none` models the case where accessing it
raises (invalid JSON body or wrong content type). The result is the
Flask response (JSON body, HTTP status) paired with the payload of the
backend generate call, when one was made. Exceptions raised inside the
`try` before `query_ollama` (a non-dict body's `.get`, a non-string
message's `.strip()`) fall to the `except` of lines 132-134;
`query_ollama` itself never raises, so every exception caught there
happens before any backend call. -/
def chat (backend : GenPayload → GenOutcome) (reqJson : Option PyVal) :
    (PyVal × ℕ) × Option GenPayload :=
  match reqJson with
  | none => ((.pyDict [("error", .pyStr "Internal error")], 500), none)
  | some data =>
    match pyGetDefault data "message" (.pyStr "") with
    | .error _ => ((.pyDict [("error", .pyStr "Internal error")], 500), none)
    | .ok msgVal =>
      match pyStrip msgVal with
      | .error _ => ((.pyDict [("error", .pyStr "Internal error")], 500), none)
      | .ok user_message =>
        match pyGetDefault data "history" (.pyList []) with
        | .error _ =>
          ((.pyDict [("error", .pyStr "Internal error")], 500), none)
        | .ok history =>
          if user_message = "" then
            ((.pyDict [("error", .pyStr "Empty message")], 400), none)
          else
            let r := query_ollama backend user_message history
            if pyTruthy r.1 then
              ((.pyDict [("response", r.1), ("model", .pyStr MODEL_NAME)],
                200), r.2)
            else
              ((.pyDict [("error", .pyStr "Failed to generate response")],
                500), r.2)

/-! ## Derived notions used to state the claims -/

/-- A well-formed history turn in the sense of the spec's data model
(section 3: a role tag and free text). -/
def mkTurn (rc : String × String) : PyVal :=
  .pyDict [("role", .pyStr rc.1), ("content", .pyStr rc.2)]

/-- The text a well-formed turn contributes to the prompt: the speaker
tag derived from the role, and the content truncated to 300
characters. -/
def turnText (rc : String × String) : String :=
  (if rc.1 = "user" then "Student" else "Tutor") ++ ": " ++ ⟨rc.2.data.take 300⟩

/-- The failure modes of the backend generate call listed by the spec:
a raised exception (timeout, connection failure), a non-success HTTP
status, or a malformed body (unparseable, or lacking the key
`"response"`). -/
def backendFails (o : GenOutcome) : Prop :=
  (∃ m, o = .exn m) ∨
  (∃ s body, o = .resp s body ∧ s ≠ 200) ∨
  (o = .resp 200 none) ∨
  (∃ j, o = .resp 200 (some j) ∧ pySubscript j "response" = .error ())

/-- A malformed history turn in the sense of claim C10: a dict lacking
the key `"role"` or the key `"content"`, or whose content is not
sliceable. -/
def badTurn (t : PyVal) : Prop :=
  ∃ kvs, t = PyVal.pyDict kvs ∧
    (kvs.lookup "role" = none ∨ kvs.lookup "content" = none ∨
      ∃ c, kvs.lookup "content" = some c ∧ pySliceFirst300 c = .error ())

/-! ## Helper lemmas -/

/-- Stripping an all-whitespace string yields the empty string. -/
theorem stripString_of_space {s : String}
    (h : ∀ c ∈ s.data, pyIsSpace c = true) : stripString s = "" := by
  have h1 : s.data.dropWhile pyIsSpace = [] := by
    rw [List.dropWhile_eq_nil_iff]
    exact h
  simp [stripString, h1]

/-- Reduction of a successful bind in `PyResult`. -/
theorem pyBind_ok {α β : Type} (a : α) (f : α → PyResult β) :
    (Except.ok a >>= f : PyResult β) = f a := rfl

/-- Reduction of a failed bind in `PyResult`. -/
theorem pyBind_error {α β : Type} (f : α → PyResult β) :
    (Except.error () >>= f : PyResult β) = .error () := rfl

/-- Reduction of `pure` in `PyResult`. -/
theorem pyPure_def {α : Type} (a : α) : (pure a : PyResult α) = .ok a := rfl

/-- `dict.get` never raises on a dict. -/
theorem pyGetDefault_dict_ok (kvs : List (String × PyVal)) (k : String)
    (d : PyVal) : ∃ x, pyGetDefault (.pyDict kvs) k d = .ok x := by
  rcases hl : kvs.lookup k with _ | x
  · exact ⟨d, by simp [pyGetDefault, hl]⟩
  · exact ⟨x, by simp [pyGetDefault, hl]⟩

/-- When the prompt builds, the backend is called with exactly the
payload of that prompt, whatever the backend then does. -/
theorem query_snd_of_ok (b : GenPayload → GenOutcome) {p : String}
    {h : PyVal} {fp : String} (hfp : buildFullPrompt p h = .ok fp) :
    (query_ollama b p h).2 = some (mkPayload fp) := by
  cases hb : b (mkPayload fp) with
  | exn m => simp [query_ollama, hfp, hb]
  | resp s body =>
    by_cases hs : s = 200
    · subst hs
      rcases body with _ | j
      · simp [query_ollama, hfp, hb]
      · rcases hr : pySubscript j "response" with e | result
        · simp [query_ollama, hfp, hb, hr]
        · rcases hl : pyLen result with e | n <;>
            simp [query_ollama, hfp, hb, hr, hl]
    · simp [query_ollama, hfp, hb, hs]

/-- When the prompt construction raises, `query_ollama` returns `None`
without ever calling the backend. -/
theorem query_of_error (b : GenPayload → GenOutcome) {p : String}
    {h : PyVal} (hfp : buildFullPrompt p h = .error ()) :
    query_ollama b p h = (.pyNone, none) := by
  simp [query_ollama, hfp]

/-- Evaluation of `chat` on a dict body with a non-empty (after
stripping) string message: the handler defers to `query_ollama` and
wraps its result. -/
theorem chat_run (b : GenPayload → GenOutcome)
    {kvs : List (String × PyVal)} {m : String} {h : PyVal}
    (hmsg : pyGetDefault (.pyDict kvs) "message" (.pyStr "") =
      .ok (.pyStr m))
    (hh : pyGetDefault (.pyDict kvs) "history" (.pyList []) = .ok h)
    (hne : stripString m ≠ "") :
    chat b (some (.pyDict kvs)) =
      (if pyTruthy (query_ollama b (stripString m) h).1 then
        ((.pyDict [("response", (query_ollama b (stripString m) h).1),
          ("model", .pyStr MODEL_NAME)], 200),
          (query_ollama b (stripString m) h).2)
      else
        ((.pyDict [("error", .pyStr "Failed to generate response")], 500),
          (query_ollama b (stripString m) h).2)) := by
  simp only [chat, hmsg, pyStrip, hh]
  rw [if_neg hne]

/-- A well-formed turn formats without an exception, to its speaker tag
and truncated content. -/
theorem formatTurn_mkTurn (rc : String × String) :
    formatTurn (mkTurn rc) = .ok (turnText rc) := rfl

/-- The comprehension over well-formed turns yields their texts. -/
theorem formatTurns_map_mkTurn (ts : List (String × String)) :
    formatTurns (ts.map mkTurn) = .ok (ts.map turnText) := by
  induction ts with
  | nil => rfl
  | cons hd tl ih =>
    simp only [List.map_cons, formatTurns, formatTurn_mkTurn, ih]
    rfl

/-- The comprehension raises as soon as any turn raises. -/
theorem formatTurns_error {l : List PyVal}
    (h : ∃ t ∈ l, formatTurn t = .error ()) :
    formatTurns l = .error () := by
  induction l with
  | nil =>
    rcases h with ⟨t, ht, _⟩
    cases ht
  | cons hd tl ih =>
    rcases h with ⟨t, ht, he⟩
    rcases hf : formatTurn hd with e | s
    · cases e
      simp only [formatTurns, hf]
      rfl
    · rcases List.mem_cons.mp ht with rfl | htl
      · rw [hf] at he
        cases he
      · have h2 : formatTurns tl = .error () := ih ⟨t, htl, he⟩
        simp only [formatTurns, hf, h2]
        rfl

/-- A malformed turn (claim C10's sense) raises while formatting. -/
theorem formatTurn_error_of_badTurn {t : PyVal} (h : badTurn t) :
    formatTurn t = .error () := by
  rcases h with ⟨kvs, rfl, hrole | hcontent | ⟨c, hc, hslice⟩⟩
  · simp only [formatTurn, pySubscript, hrole, pyBind_error]
  · rcases hr : List.lookup "role" kvs with _ | r
    · simp only [formatTurn, pySubscript, hr, pyBind_error]
    · simp only [formatTurn, pySubscript, hr, hcontent, pyBind_ok,
        pyBind_error]
  · rcases hr : List.lookup "role" kvs with _ | r
    · simp only [formatTurn, pySubscript, hr, pyBind_error]
    · simp only [formatTurn, pySubscript, hr, hc, hslice, pyBind_ok,
        pyBind_error]

/-- Building the prompt from a non-empty list of well-formed turns:
the last four are kept and formatted. -/
theorem buildFullPrompt_turns (u : String) (turns : List (String × String))
    (hne : turns ≠ []) :
    buildFullPrompt u (.pyList (turns.map mkTurn)) =
      .ok ("Recent context:\n" ++
        String.intercalate "\n\n"
          ((turns.drop (turns.length - 4)).map turnText) ++
        "\n\nStudent: " ++ u) := by
  have hlen : (turns.map mkTurn).length = turns.length := List.length_map ..
  have htr : pyTruthy (.pyList (turns.map mkTurn)) = true := by
    simp [pyTruthy, List.isEmpty_iff, hne]
  have hpos : 0 < turns.length := List.length_pos.mpr hne
  simp only [buildFullPrompt, htr, pyLen, pySliceLast4, pyIter, hlen]
  have hdrop : (turns.map mkTurn).drop (turns.length - 4) =
      (turns.drop (turns.length - 4)).map mkTurn := by
    rw [List.map_drop]
  simp only [hdrop, hlen]
  simp only [bind, Except.bind, pure, Except.pure]
  simp only [decide_eq_true_eq]
  rw [if_pos hpos]
  simp only [formatTurns_map_mkTurn ..]
  simp

/-- The shape of every payload the backend ever receives. -/
theorem query_snd_shape (b : GenPayload → GenOutcome) (pr : String)
    (h : PyVal) (p : GenPayload)
    (hp : (query_ollama b pr h).2 = some p) : ∃ fp, p = mkPayload fp := by
  rcases hfp : buildFullPrompt pr h with e | fp
  · cases e
    rw [query_of_error b hfp] at hp
    cases hp
  · rw [query_snd_of_ok b hfp] at hp
    exact ⟨fp, (Option.some.inj hp).symm⟩

/-- The shape of every payload `chat` ever sends to the backend. -/
theorem chat_snd_shape (b : GenPayload → GenOutcome) (req : Option PyVal)
    (p : GenPayload) (hp : (chat b req).2 = some p) :
    ∃ fp, p = mkPayload fp := by
  rcases req with _ | data
  · simp [chat] at hp
  · rcases hm : pyGetDefault data "message" (.pyStr "") with e | mv
    · simp [chat, hm] at hp
    · rcases hs : pyStrip mv with e | um
      · simp [chat, hm, hs] at hp
      · rcases hh : pyGetDefault data "history" (.pyList []) with e | hist
        · simp [chat, hm, hs, hh] at hp
        · by_cases hu : um = ""
          · simp [chat, hm, hs, hh, hu] at hp
          · have h2 : (chat b (some data)).2 = (query_ollama b um hist).2 := by
              by_cases ht : pyTruthy (query_ollama b um hist).1 <;>
                simp [chat, hm, hs, hh, hu, ht]
            rw [h2] at hp
            exact query_snd_shape b um hist p hp

/-! ## The claims -/

/-- C1: a chat request whose message field is an empty or
whitespace-only string is answered with the 400 validation error
`Empty message`, and the backend generate endpoint is not called
(the recorded backend payload is `none`). -/
theorem C1_whitespace_message_rejected
    (backend : GenPayload → GenOutcome) (kvs : List (String × PyVal))
    (s : String)
    (hmsg : pyGetDefault (.pyDict kvs) "message" (.pyStr "") =
      .ok (.pyStr s))
    (hws : ∀ c ∈ s.data, pyIsSpace c = true) :
    chat backend (some (.pyDict kvs)) =
      ((.pyDict [("error", .pyStr "Empty message")], 400), none) := by
  obtain ⟨x, hx⟩ := pyGetDefault_dict_ok kvs "history" (.pyList [])
  have hstrip := stripString_of_space hws
  simp [chat, hmsg, pyStrip, hx, hstrip]

/-- C1 witness: a message of one space, one tab and one newline is
rejected with 400 and no backend call. -/
theorem C1_whitespace_message_rejected_witness :
    chat (fun _ => GenOutcome.exn "refused")
      (some (.pyDict [("message", .pyStr " \t\n")])) =
      ((.pyDict [("error", .pyStr "Empty message")], 400), none) :=
  C1_whitespace_message_rejected (fun _ => GenOutcome.exn "refused")
    [("message", .pyStr " \t\n")] " \t\n" rfl (by decide)

/-- C2: a non-empty message with a non-empty history of turns (role and
content strings, per the spec's data model) produces a backend call
whose prompt is built from exactly the last four turns, each
contributing its content truncated to at most 300 characters. -/
theorem C2_history_truncated_to_last_four
    (backend : GenPayload → GenOutcome) (kvs : List (String × PyVal))
    (m : String) (turns : List (String × String))
    (hmsg : pyGetDefault (.pyDict kvs) "message" (.pyStr "") =
      .ok (.pyStr m))
    (hne : stripString m ≠ "")
    (hh : pyGetDefault (.pyDict kvs) "history" (.pyList []) =
      .ok (.pyList (turns.map mkTurn)))
    (hturns : turns ≠ []) :
    (chat backend (some (.pyDict kvs))).2 =
      some (mkPayload ("Recent context:\n" ++
        String.intercalate "\n\n"
          ((turns.drop (turns.length - 4)).map turnText) ++
        "\n\nStudent: " ++ stripString m)) ∧
    (turns.drop (turns.length - 4)).length ≤ 4 ∧
    ∀ rc ∈ turns.drop (turns.length - 4),
      (String.mk (rc.2.data.take 300)).length ≤ 300 := by
  have hfp := buildFullPrompt_turns (stripString m) turns hturns
  have hchat := chat_run backend hmsg hh hne
  refine ⟨?_, ?_, ?_⟩
  · have hq := query_snd_of_ok backend hfp
    rw [hchat]
    by_cases ht : pyTruthy
        (query_ollama backend (stripString m)
          (.pyList (turns.map mkTurn))).1 <;>
      simp [ht, hq]
  · rw [List.length_drop]
    omega
  · intro rc _
    rw [String.length_mk, List.length_take]
    exact Nat.min_le_left ..

/-- C2 witness: two well-formed turns are kept whole (each content
shorter than 300 characters) and the prompt shows both, oldest first. -/
theorem C2_history_truncated_to_last_four_witness :
    (chat (fun _ => GenOutcome.exn "refused")
      (some (.pyDict [("message", .pyStr "q"),
        ("history", .pyList [mkTurn ("user", "aaa"),
          mkTurn ("assistant", "bbb")])]))).2 =
      some (mkPayload ("Recent context:\n" ++
        String.intercalate "\n\n"
          (([("user", "aaa"), ("assistant", "bbb")].drop
            ([("user", "aaa"), ("assistant", "bbb")].length - 4)).map
              turnText) ++
        "\n\nStudent: " ++ stripString "q")) ∧
    (([(("user" : String), ("aaa" : String)), ("assistant", "bbb")].drop
      ([(("user" : String), ("aaa" : String)), ("assistant", "bbb")].length
        - 4)).length ≤ 4) ∧
    ∀ rc ∈ [(("user" : String), ("aaa" : String)),
        ("assistant", "bbb")].drop
        ([(("user" : String), ("aaa" : String)),
          ("assistant", "bbb")].length - 4),
      (String.mk (rc.2.data.take 300)).length ≤ 300 :=
  C2_history_truncated_to_last_four (fun _ => GenOutcome.exn "refused")
    [("message", .pyStr "q"),
      ("history", .pyList [mkTurn ("user", "aaa"),
        mkTurn ("assistant", "bbb")])]
    "q" [("user", "aaa"), ("assistant", "bbb")] rfl (by decide) rfl
    (by decide)

/-- C3 counterexample: the code strips the message before building the
prompt, so for the message `" hi"` the prompt sent is `"hi"`, not the
message verbatim. -/
theorem C3_counterexample_strip :
    (chat (fun _ => GenOutcome.exn "refused")
      (some (.pyDict [("message", .pyStr " hi")]))).2 =
      some (mkPayload "hi") ∧ ("hi" : String) ≠ " hi" :=
  ⟨rfl, by decide⟩

/-- C3 amended: with history absent or the empty list, the prompt sent
to the backend equals the message with leading and trailing whitespace
stripped (hence the message verbatim whenever it has none). -/
theorem C3_amended_prompt_is_stripped_message
    (backend : GenPayload → GenOutcome) (kvs : List (String × PyVal))
    (m : String)
    (hmsg : pyGetDefault (.pyDict kvs) "message" (.pyStr "") =
      .ok (.pyStr m))
    (hh : pyGetDefault (.pyDict kvs) "history" (.pyList []) =
      .ok (.pyList []))
    (hne : stripString m ≠ "") :
    (chat backend (some (.pyDict kvs))).2 =
      some (mkPayload (stripString m)) := by
  have hfp : buildFullPrompt (stripString m) (.pyList []) =
      .ok (stripString m) := rfl
  have hchat := chat_run backend hmsg hh hne
  have hq := query_snd_of_ok backend hfp
  rw [hchat]
  by_cases ht : pyTruthy
      (query_ollama backend (stripString m) (.pyList [])).1 <;>
    simp [ht, hq]

/-- C3 witness: the already-stripped message `"hi"` goes through
verbatim. -/
theorem C3_amended_prompt_is_stripped_message_witness :
    (chat (fun _ => GenOutcome.exn "refused")
      (some (.pyDict [("message", .pyStr "hi")]))).2 =
      some (mkPayload (stripString "hi")) :=
  C3_amended_prompt_is_stripped_message (fun _ => GenOutcome.exn "refused")
    [("message", .pyStr "hi")] "hi" rfl rfl (by decide)

/-- C4: whatever failure mode the generate call hits (a raised
exception such as a timeout or connection failure, a non-success HTTP
status, or a malformed body), `chat` returns one and the same generic
500 response; the response does not depend on which mode occurred, and
`chat` being a total function, no exception escapes. -/
theorem C4_backend_failure_uniform_500
    (backend : GenPayload → GenOutcome) (kvs : List (String × PyVal))
    (m : String) (h : PyVal) (fp : String)
    (hmsg : pyGetDefault (.pyDict kvs) "message" (.pyStr "") =
      .ok (.pyStr m))
    (hne : stripString m ≠ "")
    (hh : pyGetDefault (.pyDict kvs) "history" (.pyList []) = .ok h)
    (hfp : buildFullPrompt (stripString m) h = .ok fp)
    (hfail : backendFails (backend (mkPayload fp))) :
    chat backend (some (.pyDict kvs)) =
      ((.pyDict [("error", .pyStr "Failed to generate response")], 500),
        some (mkPayload fp)) := by
  have hq : query_ollama backend (stripString m) h =
      (.pyNone, some (mkPayload fp)) := by
    rcases hfail with ⟨msg, hb⟩ | ⟨s, body, hb, hs⟩ | hb | ⟨j, hb, hr⟩
    · simp [query_ollama, hfp, hb]
    · simp [query_ollama, hfp, hb, hs]
    · simp [query_ollama, hfp, hb]
    · simp [query_ollama, hfp, hb, hr]
  have hchat := chat_run backend hmsg hh hne
  rw [hchat, hq]
  simp [pyTruthy]

/-- C4 witness: a connection failure (raised exception) yields the
generic 500. -/
theorem C4_backend_failure_uniform_500_witness :
    chat (fun _ => GenOutcome.exn "connection refused")
      (some (.pyDict [("message", .pyStr "hi")])) =
      ((.pyDict [("error", .pyStr "Failed to generate response")], 500),
        some (mkPayload "hi")) :=
  C4_backend_failure_uniform_500 (fun _ => GenOutcome.exn "connection refused")
    [("message", .pyStr "hi")] "hi" (.pyList []) "hi" rfl (by decide) rfl
    rfl (Or.inl ⟨"connection refused", rfl⟩)

/-- C5 counterexample: an HTTP 200 reply whose well-formed body carries
the empty string as generated text is answered with the generic 500
error, not a success response. -/
theorem C5_counterexample_empty_text :
    chat (fun _ => GenOutcome.resp 200
        (some (.pyDict [("response", .pyStr "")])))
      (some (.pyDict [("message", .pyStr "hi")])) =
      ((.pyDict [("error", .pyStr "Failed to generate response")], 500),
        some (mkPayload "hi")) ∧ (500 : ℕ) ≠ 200 :=
  ⟨rfl, by decide⟩

/-- C5 amended: when the generate call returns HTTP 200 with a
well-formed body whose generated text is non-empty, `chat` returns the
200 success response carrying that text and the fixed model
identifier. -/
theorem C5_amended_success_response
    (backend : GenPayload → GenOutcome) (kvs : List (String × PyVal))
    (m : String) (h : PyVal) (fp : String) (j : PyVal) (s : String)
    (hmsg : pyGetDefault (.pyDict kvs) "message" (.pyStr "") =
      .ok (.pyStr m))
    (hne : stripString m ≠ "")
    (hh : pyGetDefault (.pyDict kvs) "history" (.pyList []) = .ok h)
    (hfp : buildFullPrompt (stripString m) h = .ok fp)
    (hb : backend (mkPayload fp) = .resp 200 (some j))
    (hr : pySubscript j "response" = .ok (.pyStr s))
    (hs : s ≠ "") :
    chat backend (some (.pyDict kvs)) =
      ((.pyDict [("response", .pyStr s), ("model", .pyStr MODEL_NAME)],
        200), some (mkPayload fp)) := by
  have hq : query_ollama backend (stripString m) h =
      (.pyStr s, some (mkPayload fp)) := by
    simp [query_ollama, hfp, hb, hr, pyLen]
  have hchat := chat_run backend hmsg hh hne
  rw [hchat, hq]
  simp [pyTruthy, hs]

/-- C5 witness: a backend answering `"ok"` yields the success
response. -/
theorem C5_amended_success_response_witness :
    chat (fun _ => GenOutcome.resp 200
        (some (.pyDict [("response", .pyStr "ok")])))
      (some (.pyDict [("message", .pyStr "hi")])) =
      ((.pyDict [("response", .pyStr "ok"), ("model", .pyStr MODEL_NAME)],
        200), some (mkPayload "hi")) :=
  C5_amended_success_response
    (fun _ => GenOutcome.resp 200
      (some (.pyDict [("response", .pyStr "ok")])))
    [("message", .pyStr "hi")] "hi" (.pyList []) "hi"
    (.pyDict [("response", .pyStr "ok")]) "ok" rfl (by decide) rfl rfl
    rfl rfl (by decide)

/-- C6: the health endpoint reports status 200 exactly when the backend
status call returns HTTP 200; every other outcome (any other status, or
a raised exception such as an unreachable backend) is reported with
status 503. -/
theorem C6_health_200_iff_backend_200 (o : TagsOutcome) :
    ((health_check o).2 = 200 ↔ o = TagsOutcome.resp 200) ∧
    ((health_check o).2 = 200 ∨ (health_check o).2 = 503) := by
  cases o with
  | resp s =>
    by_cases hs : s = 200
    · subst hs
      simp [health_check]
    · simp [health_check, hs]
  | exn m => simp [health_check]

/-- C6 witness: the theorem applied to an unreachable backend (raised
exception): the report is not 200, hence 503. -/
theorem C6_health_200_iff_backend_200_witness :
    ((health_check (.exn "unreachable")).2 = 200 ↔
      TagsOutcome.exn "unreachable" = TagsOutcome.resp 200) ∧
    ((health_check (.exn "unreachable")).2 = 200 ∨
      (health_check (.exn "unreachable")).2 = 503) :=
  C6_health_200_iff_backend_200 (.exn "unreachable")

/-- C7: every payload that ever reaches the backend generate endpoint
carries the fixed model identifier, the fixed system instruction,
`stream = false` and the fixed sampling options; it is determined by its
prompt field alone. -/
theorem C7_payload_constant_fields (backend : GenPayload → GenOutcome)
    (req : Option PyVal) (p : GenPayload)
    (hp : (chat backend req).2 = some p) :
    p.model = "chemeng-tutor" ∧ p.system = SYSTEM_PROMPT ∧
    p.stream = false ∧ p.options = ollamaOptions ∧
    p = mkPayload p.prompt := by
  obtain ⟨fp, rfl⟩ := chat_snd_shape backend req p hp
  exact ⟨rfl, rfl, rfl, rfl, rfl⟩

/-- C7 witness: the payload of a concrete call carries exactly the
constants. -/
theorem C7_payload_constant_fields_witness :
    (mkPayload "hi").model = "chemeng-tutor" ∧
    (mkPayload "hi").system = SYSTEM_PROMPT ∧
    (mkPayload "hi").stream = false ∧
    (mkPayload "hi").options = ollamaOptions ∧
    mkPayload "hi" = mkPayload (mkPayload "hi").prompt :=
  C7_payload_constant_fields (fun _ => GenOutcome.exn "refused")
    (some (.pyDict [("message", .pyStr "hi")])) (mkPayload "hi") rfl

/-- C8: an HTTP 200 generate reply whose generated text is the empty
string makes `chat` return the generic 500 `Failed to generate
response`, not a success response with empty text (`if bot_response:`
treats the empty string as falsy). -/
theorem C8_empty_text_is_error (backend : GenPayload → GenOutcome)
    (kvs : List (String × PyVal)) (m : String) (h : PyVal) (fp : String)
    (j : PyVal)
    (hmsg : pyGetDefault (.pyDict kvs) "message" (.pyStr "") =
      .ok (.pyStr m))
    (hne : stripString m ≠ "")
    (hh : pyGetDefault (.pyDict kvs) "history" (.pyList []) = .ok h)
    (hfp : buildFullPrompt (stripString m) h = .ok fp)
    (hb : backend (mkPayload fp) = .resp 200 (some j))
    (hr : pySubscript j "response" = .ok (.pyStr "")) :
    chat backend (some (.pyDict kvs)) =
      ((.pyDict [("error", .pyStr "Failed to generate response")], 500),
        some (mkPayload fp)) := by
  have hq : query_ollama backend (stripString m) h =
      (.pyStr "", some (mkPayload fp)) := by
    simp [query_ollama, hfp, hb, hr, pyLen]
  have hchat := chat_run backend hmsg hh hne
  rw [hchat, hq]
  simp [pyTruthy]

/-- C8 witness: a backend generating the empty string yields the 500
error. -/
theorem C8_empty_text_is_error_witness :
    chat (fun _ => GenOutcome.resp 200
        (some (.pyDict [("response", .pyStr "")])))
      (some (.pyDict [("message", .pyStr "hi")])) =
      ((.pyDict [("error", .pyStr "Failed to generate response")], 500),
        some (mkPayload "hi")) :=
  C8_empty_text_is_error
    (fun _ => GenOutcome.resp 200 (some (.pyDict [("response", .pyStr "")])))
    [("message", .pyStr "hi")] "hi" (.pyList []) "hi"
    (.pyDict [("response", .pyStr "")]) rfl (by decide) rfl rfl rfl rfl

/-- C9: an unparseable request body, and a message field whose value is
not a string, both fall to the outer exception handler: `chat` answers
the generic 500 `Internal error`, not the 400 validation error, and the
backend is never called. -/
theorem C9_invalid_body_or_nonstring_message
    (backend : GenPayload → GenOutcome) :
    (chat backend none =
      ((.pyDict [("error", .pyStr "Internal error")], 500), none)) ∧
    ∀ (kvs : List (String × PyVal)) (v : PyVal),
      pyGetDefault (.pyDict kvs) "message" (.pyStr "") = .ok v →
      (∀ s, v ≠ .pyStr s) →
      chat backend (some (.pyDict kvs)) =
        ((.pyDict [("error", .pyStr "Internal error")], 500), none) := by
  constructor
  · rfl
  · intro kvs v hv hns
    have hs : pyStrip v = .error () := by
      cases v with
      | pyStr s => exact absurd rfl (hns s)
      | _ => rfl
    simp [chat, hv, hs]

/-- C9 witness: a numeric message field yields 500 `Internal error` with
no backend call, as does an unparseable body. -/
theorem C9_invalid_body_or_nonstring_message_witness :
    (chat (fun _ => GenOutcome.exn "refused") none =
      ((.pyDict [("error", .pyStr "Internal error")], 500), none)) ∧
    chat (fun _ => GenOutcome.exn "refused")
      (some (.pyDict [("message", .pyInt 3)])) =
      ((.pyDict [("error", .pyStr "Internal error")], 500), none) :=
  ⟨(C9_invalid_body_or_nonstring_message (fun _ => GenOutcome.exn "refused")).1,
    (C9_invalid_body_or_nonstring_message (fun _ => GenOutcome.exn "refused")).2
      [("message", .pyInt 3)] (.pyInt 3) rfl (fun s h => by cases h)⟩

/-- C10: when some of the last four history turns is a dict lacking the
`role` key or the `content` key, or has unsliceable content, the
comprehension raises before `requests.post`: the backend is never
called, and the caller receives the same generic 500 `Failed to
generate response` as for a real backend failure. -/
theorem C10_malformed_turn_no_call (backend : GenPayload → GenOutcome)
    (kvs : List (String × PyVal)) (m : String) (hist : List PyVal)
    (hmsg : pyGetDefault (.pyDict kvs) "message" (.pyStr "") =
      .ok (.pyStr m))
    (hne : stripString m ≠ "")
    (hh : pyGetDefault (.pyDict kvs) "history" (.pyList []) =
      .ok (.pyList hist))
    (hbad : ∃ t ∈ hist.drop (hist.length - 4), badTurn t) :
    chat backend (some (.pyDict kvs)) =
      ((.pyDict [("error", .pyStr "Failed to generate response")], 500),
        none) := by
  have hne2 : hist ≠ [] := by
    rcases hbad with ⟨t, ht, _⟩
    intro hnil
    subst hnil
    simp at ht
  have hfp : buildFullPrompt (stripString m) (.pyList hist) =
      .error () := by
    have htr : pyTruthy (.pyList hist) = true := by
      simp [pyTruthy, List.isEmpty_iff, hne2]
    have hpos : 0 < hist.length := List.length_pos.mpr hne2
    have hft : formatTurns (hist.drop (hist.length - 4)) = .error () := by
      apply formatTurns_error
      rcases hbad with ⟨t, ht, hb⟩
      exact ⟨t, ht, formatTurn_error_of_badTurn hb⟩
    simp only [buildFullPrompt, htr, pyLen, pySliceLast4, pyIter]
    simp only [bind, Except.bind, pure, Except.pure, decide_eq_true_eq]
    rw [if_pos hpos]
    simp [hft]
  have hq := query_of_error backend hfp
  have hchat := chat_run backend hmsg hh hne
  rw [hchat, hq]
  simp [pyTruthy]

/-- C10 witness: a single history turn lacking the `content` key yields
the generic 500 with no backend call. -/
theorem C10_malformed_turn_no_call_witness :
    chat (fun _ => GenOutcome.exn "refused")
      (some (.pyDict [("message", .pyStr "q"),
        ("history", .pyList [.pyDict [("role", .pyStr "user")]])])) =
      ((.pyDict [("error", .pyStr "Failed to generate response")], 500),
        none) :=
  C10_malformed_turn_no_call (fun _ => GenOutcome.exn "refused")
    [("message", .pyStr "q"),
      ("history", .pyList [.pyDict [("role", .pyStr "user")]])]
    "q" [.pyDict [("role", .pyStr "user")]] rfl (by decide) rfl
    ⟨.pyDict [("role", .pyStr "user")], by simp,
      ⟨[("role", .pyStr "user")], rfl, Or.inr (Or.inl rfl)⟩⟩

end ChatbotServer
